import Mathlib

/-!
Shallow embedding of the FormBuddy icon-generation scripts
(`scripts/generate_icons.py`, `scripts/generate_icons_from_file.py`,
`scripts/generate_icons_from_url.py`).

An image is modelled as a raster: a width, a height and a pixel function
returning an RGBA quadruple.  The PIL primitives the scripts call
(`Image.crop`, `Image.putalpha`, `ImageDraw.rounded_rectangle`, drawing
shapes, writing files) are modelled explicitly from their documented
pixel semantics; the resampling filter (`Image.resize(..., LANCZOS)`) is
an arbitrary deterministic function passed as a parameter `resize` to
every pipeline, since none of the verified properties depend on the
filter's kernel, only on its output dimensions.
-/

namespace PIL

/-- An RGBA pixel: red, green, blue, alpha channel values. -/
abbrev Pix := Nat × Nat × Nat × Nat

/-- An RGBA raster: width, height and a pixel function. -/
structure Image where
  width : Nat
  height : Nat
  px : Nat → Nat → Pix

/-- A single-channel (PIL mode "L") raster, used for alpha masks. -/
structure LImage where
  width : Nat
  height : Nat
  px : Nat → Nat → Nat

/-- The type of the resampling filter `img.resize((s, s), resample=LANCZOS)`.
The scripts only ever resize to squares, so the model takes the target side. -/
abbrev Resize := Image → Nat → Image

/-- PIL `Image.crop((l, t, r, b))`: the output pixel `(x, y)` is the input
pixel `(l + x, t + y)`; the output is `r - l` wide and `b - t` high. -/
def cropImage (img : Image) (l t r b : Nat) : Image :=
  ⟨r - l, b - t, fun x y => img.px (l + x) (t + y)⟩

/-- PIL `Image.putalpha(mask)`: replace the alpha channel by the mask values. -/
def putalpha (img : Image) (m : LImage) : Image :=
  ⟨img.width, img.height, fun x y =>
    ((img.px x y).1, (img.px x y).2.1, (img.px x y).2.2.1, m.px x y)⟩

/-- Squared euclidean distance between pixel `(x, y)` and centre `(cx, cy)`. -/
def diskD2 (cx cy x y : Nat) : Nat :=
  (max x cx - min x cx) ^ 2 + (max y cy - min y cy) ^ 2

/-- The pixel set filled by PIL
`ImageDraw.rounded_rectangle([x0, y0, x1, y1], radius=r, fill=...)`:
the two axis-aligned rectangles obtained by insetting the (inclusive)
box by `r` horizontally resp. vertically, together with the four corner
quarter-disks of radius `r` centred `r` inside each box corner. -/
def roundedCond (x0 y0 x1 y1 r x y : Nat) : Prop :=
  (x0 + r ≤ x ∧ x + r ≤ x1 ∧ y0 ≤ y ∧ y ≤ y1) ∨
  (x0 ≤ x ∧ x ≤ x1 ∧ y0 + r ≤ y ∧ y + r ≤ y1) ∨
  (x0 ≤ x ∧ x ≤ x0 + r ∧ y0 ≤ y ∧ y ≤ y0 + r ∧ diskD2 (x0 + r) (y0 + r) x y ≤ r ^ 2) ∨
  (x1 ≤ x + r ∧ x ≤ x1 ∧ y0 ≤ y ∧ y ≤ y0 + r ∧ diskD2 (x1 - r) (y0 + r) x y ≤ r ^ 2) ∨
  (x0 ≤ x ∧ x ≤ x0 + r ∧ y1 ≤ y + r ∧ y ≤ y1 ∧ diskD2 (x0 + r) (y1 - r) x y ≤ r ^ 2) ∨
  (x1 ≤ x + r ∧ x ≤ x1 ∧ y1 ≤ y + r ∧ y ≤ y1 ∧ diskD2 (x1 - r) (y1 - r) x y ≤ r ^ 2)

instance (x0 y0 x1 y1 r x y : Nat) : Decidable (roundedCond x0 y0 x1 y1 r x y) := by
  unfold roundedCond
  infer_instance

/-- Overwrite the pixels of a region with a fixed colour, as `ImageDraw`
does on an RGBA image (the colour is written, not alpha-blended). -/
def drawRegion (img : Image) (p : Nat → Nat → Bool) (c : Pix) : Image :=
  ⟨img.width, img.height, fun x y => if p x y then c else img.px x y⟩

/-- Filesystem and network effects performed by a generator run,
in execution order. -/
inductive FsOp where
  | mkdirOut : FsOp
  | fetch : FsOp
  | touchFile : String → FsOp
  | writeFile : String → Image → FsOp

/-- Name and pixel dimensions of every image written by an effect trace. -/
def writtenPNGs (ops : List FsOp) : List (String × Nat × Nat) :=
  ops.filterMap fun op =>
    match op with
    | .writeFile n img => some (n, img.width, img.height)
    | _ => none

end PIL

namespace FileGen

/-- `SPECS` from `generate_icons_from_file.py`. -/
def SPECS : List (Nat × String) :=
  [(512, "icon512.png"), (128, "icon128.png"), (48, "icon48.png"), (16, "icon16.png")]

/-- `center_crop_square` from `generate_icons_from_file.py`. -/
def center_crop_square (img : PIL.Image) : PIL.Image :=
  let side := min img.width img.height
  let left := (img.width - side) / 2
  let top := (img.height - side) / 2
  PIL.cropImage img left top (left + side) (top + side)

/-- `rounded_alpha_mask` from `generate_icons_from_file.py`: an "L" image
of zeros with a rounded rectangle over the full box filled with 255. -/
def rounded_alpha_mask (size radius : Nat) : PIL.LImage :=
  ⟨size, size, fun x y =>
    if PIL.roundedCond 0 0 (size - 1) (size - 1) radius x y then 255 else 0⟩

/-- The radius `max(2, int(size * 0.16))` computed inline in `main`.
For every size in `SPECS` the float product truncates exactly as the
rational `size * 16 / 100` does (2.56, 7.68, 20.48 and 81.92 all carry
float error far below the distance to the next integer). -/
def corner_radius (size : Nat) : Nat := max 2 (size * 16 / 100)

/-- One iteration of the output loop of `main`: resize the cropped
source to `size` and put the rounded alpha mask. -/
def icon (resize : PIL.Resize) (src : PIL.Image) (size : Nat) : PIL.Image :=
  PIL.putalpha (resize src size) (rounded_alpha_mask size (corner_radius size))

/-- The images written by a successful run of `main`, in write order. -/
def process (resize : PIL.Resize) (src : PIL.Image) : List (String × PIL.Image) :=
  let cropped := center_crop_square src
  ("source.png", cropped) :: SPECS.map fun p => (p.2, icon resize cropped p.1)

/-- The `SystemExit` message for a wrong argument count. -/
def usageMsg : String :=
  "Usage: python3 scripts/generate_icons_from_file.py /path/to/source.png"

/-- The `SystemExit` message for a missing source path. -/
def notFoundMsg : String := "Source image not found"

/-- `main` from `generate_icons_from_file.py`.  `argv` is `sys.argv`
(script name included), `srcExists` the result of `src_path.exists()`,
`src` the decoded source image.  The result is the effect trace and,
when the script raises `SystemExit` (non-zero exit status), its message. -/
def main (resize : PIL.Resize) (argv : List String) (srcExists : Bool) (src : PIL.Image) :
    List PIL.FsOp × Option String :=
  if argv.length ≠ 2 then ([], some usageMsg)
  else if srcExists = false then ([], some notFoundMsg)
  else (PIL.FsOp.mkdirOut :: (process resize src).map fun p => PIL.FsOp.writeFile p.1 p.2, none)

end FileGen

namespace UrlGen

/-- The `IconSpec` dataclass from `generate_icons_from_url.py`. -/
structure IconSpec where
  size : Nat
  filename : String
  deriving DecidableEq

/-- `SPECS` from `generate_icons_from_url.py`. -/
def SPECS : List IconSpec :=
  [⟨512, "icon512.png"⟩, ⟨128, "icon128.png"⟩, ⟨48, "icon48.png"⟩, ⟨16, "icon16.png"⟩]

/-- `center_crop_square` from `generate_icons_from_url.py`
(textually identical to the file-based script's). -/
def center_crop_square (img : PIL.Image) : PIL.Image :=
  let side := min img.width img.height
  let left := (img.width - side) / 2
  let top := (img.height - side) / 2
  PIL.cropImage img left top (left + side) (top + side)

/-- `rounded_alpha_mask` from `generate_icons_from_url.py`
(textually identical to the file-based script's). -/
def rounded_alpha_mask (size radius : Nat) : PIL.LImage :=
  ⟨size, size, fun x y =>
    if PIL.roundedCond 0 0 (size - 1) (size - 1) radius x y then 255 else 0⟩

/-- The radius `max(2, int(spec.size * 0.16))` computed inline in `main`. -/
def corner_radius (size : Nat) : Nat := max 2 (size * 16 / 100)

/-- One iteration of the output loop of `main`. -/
def icon (resize : PIL.Resize) (src : PIL.Image) (size : Nat) : PIL.Image :=
  PIL.putalpha (resize src size) (rounded_alpha_mask size (corner_radius size))

/-- The images written by a successful run of `main`, in write order. -/
def process (resize : PIL.Resize) (src : PIL.Image) : List (String × PIL.Image) :=
  let cropped := center_crop_square src
  ("source.png", cropped) :: SPECS.map fun sp => (sp.filename, icon resize cropped sp.size)

/-- Outcome of the HTTP GET in `fetch_image`: either a transport error
(connection failure or timeout raises inside `requests.get`), or a
response with a final status code and, when the body bytes decode as an
image, the decoded image. -/
inductive FetchOutcome where
  | netError : FetchOutcome
  | response : Nat → Option PIL.Image → FetchOutcome

/-- A status code in the 2xx success range. -/
def is2xx (status : Nat) : Prop := 200 ≤ status ∧ status < 300

instance (status : Nat) : Decidable (is2xx status) := by
  unfold is2xx
  infer_instance

/-- Modelled from the library's documented behaviour:
`requests.Response.raise_for_status()` raises `HTTPError` exactly for
status codes in `[400, 600)` (client and server errors). -/
def raisesForStatus (status : Nat) : Bool := decide (400 ≤ status ∧ status < 600)

/-- `fetch_image` from `generate_icons_from_url.py`: `requests.get`,
`raise_for_status`, decode, convert to RGBA.  `none` means the call
raised (network error, `HTTPError`, or undecodable body). -/
def fetch_image (o : FetchOutcome) : Option PIL.Image :=
  match o with
  | .netError => none
  | .response status decoded => if raisesForStatus status then none else decoded

/-- The message of the uncaught exception on a failed fetch. -/
def fetchFailMsg : String := "fetch or decode failed"

/-- `main` from `generate_icons_from_url.py`: make the output directory,
fetch, then crop, save the source copy and write the four icons. -/
def main (resize : PIL.Resize) (o : FetchOutcome) : List PIL.FsOp × Option String :=
  match fetch_image o with
  | none => ([PIL.FsOp.mkdirOut, PIL.FsOp.fetch], some fetchFailMsg)
  | some src =>
      (PIL.FsOp.mkdirOut :: PIL.FsOp.fetch ::
        (process resize src).map fun p => PIL.FsOp.writeFile p.1 p.2, none)

end UrlGen

namespace ProcGen

/-- The first gradient colour `#1E3A8A` from `generate_icons.py`. -/
def bg1 : ℤ × ℤ × ℤ := (30, 58, 138)

/-- The second gradient colour `#2563EB` from `generate_icons.py`. -/
def bg2 : ℤ × ℤ × ℤ := (37, 99, 235)

/-- `lerp` from `generate_icons.py`.  Python `int()` truncates toward
zero; every blended channel value is nonnegative, where truncation
agrees with the floor. -/
def lerp (a b : ℤ) (t : ℚ) : ℤ := ⌊(a : ℚ) + ((b : ℚ) - (a : ℚ)) * t⌋

/-- `blend` from `generate_icons.py`. -/
def blend (c1 c2 : ℤ × ℤ × ℤ) (t : ℚ) : ℤ × ℤ × ℤ :=
  (lerp c1.1 c2.1 t, lerp c1.2.1 c2.2.1 t, lerp c1.2.2 c2.2.2 t)

/-- The divisor `2 * (size - 1)` of the gradient parameter
`t = (x + y) / (2 * (size - 1))` in `make_base`. -/
def gradient_divisor (size : ℤ) : ℤ := 2 * (size - 1)

/-- The gradient parameter `t` for pixel `(x, y)`: `none` models the
`ZeroDivisionError` Python raises when the divisor is zero. -/
def pixelT (size x y : Nat) : Option ℚ :=
  if gradient_divisor (size : ℤ) = 0 then none
  else some (((x : ℚ) + (y : ℚ)) / ((2 : ℚ) * ((size : ℚ) - 1)))

/-- The gradient background filled by the first loop of `make_base`. -/
def gradient (size : Nat) : PIL.Image :=
  ⟨size, size, fun x y =>
    let c := blend bg1 bg2 ((pixelT size x y).getD 0)
    (c.1.toNat, c.2.1.toNat, c.2.2.toNat, 255)⟩

/-- Membership in the band of width `w` around the segment from
`(x1, y1)` to `(x2, y2)`: a model of `ImageDraw.line(..., width=w)`
(bounding box widened by `w`, and the doubled distance of the pixel to
the carrying line at most `w`, both squared to stay in integers). -/
def inThickSeg (x1 y1 x2 y2 w x y : Nat) : Bool :=
  let dx : ℤ := (x2 : ℤ) - (x1 : ℤ)
  let dy : ℤ := (y2 : ℤ) - (y1 : ℤ)
  let cross : ℤ := dx * ((y : ℤ) - (y1 : ℤ)) - dy * ((x : ℤ) - (x1 : ℤ))
  decide (min x1 x2 ≤ x + w ∧ x ≤ max x1 x2 + w ∧
    min y1 y2 ≤ y + w ∧ y ≤ max y1 y2 + w ∧
    4 * cross ^ 2 ≤ (w : ℤ) ^ 2 * (dx ^ 2 + dy ^ 2))

/-- The drawing steps of `make_base` after the gradient fill, in program
order: rounded-square alpha mask, document shadow, document, folded
corner with its edge line, four form lines, badge disk with outline,
and the checkmark polyline.  Every `int(size * f)` coordinate is the
truncation of a nonnegative float product, modelled by natural
division; the region of each `ImageDraw` primitive is modelled by its
geometric pixel test. -/
def decorate (size : Nat) (img : PIL.Image) : PIL.Image :=
  let corner_r := size * 16 / 100
  let img1 := PIL.putalpha img
    ⟨size, size, fun x y =>
      if PIL.roundedCond 0 0 (size - 1) (size - 1) corner_r x y then 255 else 0⟩
  let d0 := size * 26 / 100
  let d1 := size * 20 / 100
  let d2 := size * 74 / 100
  let d3 := size * 79 / 100
  let off := size * 2 / 100
  let docR := size * 6 / 100
  let img2 := PIL.drawRegion img1
    (fun x y => decide (PIL.roundedCond (d0 + off) (d1 + off) (d2 + off) (d3 + off) docR x y))
    (0, 0, 0, 60)
  let img3 := PIL.drawRegion img2
    (fun x y => decide (PIL.roundedCond d0 d1 d2 d3 docR x y)) (255, 255, 255, 245)
  let fold := size * 11 / 100
  let img4 := PIL.drawRegion img3
    (fun x y => decide (d2 - fold ≤ x ∧ x ≤ d2 ∧ d1 ≤ y ∧ y + d2 ≤ x + d1 + fold))
    (229, 231, 235, 255)
  let img5 := PIL.drawRegion img4
    (fun x y => inThickSeg (d2 - fold) d1 d2 (d1 + fold) (size * 8 / 1000) x y)
    (209, 213, 219, 255)
  let lineL := d0 + size * 6 / 100
  let lineR := d2 - size * 6 / 100
  let lineY := d1 + size * 20 / 100
  let lineH := size * 45 / 1000
  let lineW := size * 14 / 1000
  let img6 := ([88, 78, 72, 58] : List Nat).enum.foldl
    (fun im iw => PIL.drawRegion im
      (fun x y => inThickSeg lineL (lineY + iw.1 * lineH)
        (lineL + (lineR - lineL) * iw.2 / 100) (lineY + iw.1 * lineH) lineW x y)
      (156, 163, 175, 255)) img5
  let cx := size * 71 / 100
  let cy := size * 73 / 100
  let br := size * 12 / 100
  let img7 := PIL.drawRegion img6
    (fun x y => decide (PIL.diskD2 cx cy x y ≤ br ^ 2)) (34, 197, 94, 255)
  let ow := size * 12 / 1000
  let img8 := PIL.drawRegion img7
    (fun x y => decide ((br - ow) ^ 2 ≤ PIL.diskD2 cx cy x y ∧ PIL.diskD2 cx cy x y ≤ br ^ 2))
    (255, 255, 255, 220)
  let cw := size * 2 / 100
  let p1x := cx - br * 42 / 100
  let p1y := cy - br * 2 / 100
  let p2x := cx - br * 12 / 100
  let p2y := cy + br * 30 / 100
  let p3x := cx + br * 50 / 100
  let p3y := cy - br * 34 / 100
  PIL.drawRegion img8
    (fun x y => inThickSeg p1x p1y p2x p2y cw x y || inThickSeg p2x p2y p3x p3y cw x y)
    (255, 255, 255, 255)

/-- `make_base` from `generate_icons.py`: the gradient fill followed by
the drawing steps.  The result is `none` exactly when the gradient loop
hits the `ZeroDivisionError`: the loop body runs for every `(x, y)` in
`range(size)^2`, so it raises iff it runs at all (`size ≥ 1`) while the
divisor `2 * (size - 1)` — which depends on `size` only — is zero,
which is also when some pixel's `t` (`pixelT`) is undefined. -/
def make_base (size : Nat) : Option PIL.Image :=
  if 0 < size ∧ gradient_divisor (size : ℤ) = 0 then none
  else some (decorate size (gradient size))

/-- The downsample loop targets `(128, 48, 16)` with their f-string
file names `f"icon{target}.png"`. -/
def targets : List (Nat × String) :=
  [(128, "icon128.png"), (48, "icon48.png"), (16, "icon16.png")]

/-- `main` from `generate_icons.py`: make the output directory, build the
base, touch and save `icon512.png`, then save the three downsampled
copies.  A `ZeroDivisionError` in `make_base` would propagate after the
directory was made and before any file was touched. -/
def main (resize : PIL.Resize) : List PIL.FsOp × Option String :=
  match make_base 512 with
  | none => ([PIL.FsOp.mkdirOut], some "ZeroDivisionError")
  | some base =>
      (PIL.FsOp.mkdirOut :: PIL.FsOp.touchFile "icon512.png" ::
        PIL.FsOp.writeFile "icon512.png" base ::
        targets.map fun p => PIL.FsOp.writeFile p.2 (resize base p.1), none)

end ProcGen

/-- Small-step emission of the per-size output loop shared by the three
scripts: each `(size, filename)` spec, in list order, contributes the
effect `body size filename`. -/
inductive LoopRun (body : Nat → String → PIL.FsOp) :
    List (Nat × String) → List PIL.FsOp → Prop where
  | nil : LoopRun body [] []
  | cons (s : Nat) (f : String) (rest : List (Nat × String)) (ops : List PIL.FsOp) :
      LoopRun body rest ops → LoopRun body ((s, f) :: rest) (body s f :: ops)

/-- Big-step run relation for `generate_icons_from_file.py`'s `main`,
mirroring its three control-flow paths. -/
inductive RunFile (resize : PIL.Resize) (argv : List String) (srcExists : Bool)
    (src : PIL.Image) : List PIL.FsOp × Option String → Prop where
  | usage : argv.length ≠ 2 → RunFile resize argv srcExists src ([], some FileGen.usageMsg)
  | missing : argv.length = 2 → srcExists = false →
      RunFile resize argv srcExists src ([], some FileGen.notFoundMsg)
  | success (ops : List PIL.FsOp) : argv.length = 2 → srcExists = true →
      LoopRun (fun s f =>
          PIL.FsOp.writeFile f (FileGen.icon resize (FileGen.center_crop_square src) s))
        FileGen.SPECS ops →
      RunFile resize argv srcExists src
        (PIL.FsOp.mkdirOut ::
          PIL.FsOp.writeFile "source.png" (FileGen.center_crop_square src) :: ops, none)

/-- Big-step run relation for `generate_icons_from_url.py`'s `main`. -/
inductive RunUrl (resize : PIL.Resize) (o : UrlGen.FetchOutcome) :
    List PIL.FsOp × Option String → Prop where
  | fail : UrlGen.fetch_image o = none →
      RunUrl resize o ([PIL.FsOp.mkdirOut, PIL.FsOp.fetch], some UrlGen.fetchFailMsg)
  | success (src : PIL.Image) (ops : List PIL.FsOp) : UrlGen.fetch_image o = some src →
      LoopRun (fun s f =>
          PIL.FsOp.writeFile f (UrlGen.icon resize (UrlGen.center_crop_square src) s))
        (UrlGen.SPECS.map fun sp => (sp.size, sp.filename)) ops →
      RunUrl resize o
        (PIL.FsOp.mkdirOut :: PIL.FsOp.fetch ::
          PIL.FsOp.writeFile "source.png" (UrlGen.center_crop_square src) :: ops, none)

/-- Big-step run relation for `generate_icons.py`'s `main`. -/
inductive RunProc (resize : PIL.Resize) : List PIL.FsOp × Option String → Prop where
  | fault : ProcGen.make_base 512 = none →
      RunProc resize ([PIL.FsOp.mkdirOut], some "ZeroDivisionError")
  | success (base : PIL.Image) (ops : List PIL.FsOp) : ProcGen.make_base 512 = some base →
      LoopRun (fun s f => PIL.FsOp.writeFile f (resize base s)) ProcGen.targets ops →
      RunProc resize
        (PIL.FsOp.mkdirOut :: PIL.FsOp.touchFile "icon512.png" ::
          PIL.FsOp.writeFile "icon512.png" base :: ops, none)

/-- A concrete resampling filter (nearest neighbour), used only to
instantiate the `resize` parameter in witnesses. -/
def nearestResize : PIL.Resize :=
  fun img s => ⟨s, s, fun x y => img.px (x * img.width / s) (y * img.height / s)⟩

/-- A concrete 5 by 3 source image, used only in witnesses. -/
def sampleImg : PIL.Image := ⟨5, 3, fun _ _ => (10, 20, 30, 255)⟩

/-- The spec's description of the mask complement: the four corner areas
of the `size` by `size` square that lie beyond the corner disks of
radius `r` (the corner squares left uncovered by the two inset bands,
minus the quarter-disks). -/
def cornerOutside (size r x y : Nat) : Prop :=
  (x < r ∧ y < r ∧ r ^ 2 < PIL.diskD2 r r x y) ∨
  (size ≤ x + r ∧ y < r ∧ r ^ 2 < PIL.diskD2 (size - 1 - r) r x y) ∨
  (x < r ∧ size ≤ y + r ∧ r ^ 2 < PIL.diskD2 r (size - 1 - r) x y) ∨
  (size ≤ x + r ∧ size ≤ y + r ∧ r ^ 2 < PIL.diskD2 (size - 1 - r) (size - 1 - r) x y)

instance (size r x y : Nat) : Decidable (cornerOutside size r x y) := by
  unfold cornerOutside
  infer_instance

/-- The spec's formula for the corner radius: a fixed fraction 0.16 of
the target size, floored, with a minimum of 2 pixels. -/
def specRadius (size : Nat) : Nat := max 2 (Int.toNat ⌊(size : ℚ) * (16 / 100)⌋)

/-- The spec's contract for a centre-crop-to-square function: the output
is a square of side `min W H` whose pixel `(x, y)` is the input pixel
offset by the floored half-margins, and the two margins on each axis
differ by at most one pixel. -/
def CropSpec (f : PIL.Image → PIL.Image) : Prop :=
  ∀ img : PIL.Image,
    (f img).width = min img.width img.height ∧
    (f img).height = min img.width img.height ∧
    (∀ x y, (f img).px x y =
      img.px ((img.width - min img.width img.height) / 2 + x)
             ((img.height - min img.width img.height) / 2 + y)) ∧
    ((img.width - min img.width img.height) / 2 ≤
        img.width - min img.width img.height -
          (img.width - min img.width img.height) / 2 ∧
      img.width - min img.width img.height -
          (img.width - min img.width img.height) / 2 ≤
        (img.width - min img.width img.height) / 2 + 1) ∧
    ((img.height - min img.width img.height) / 2 ≤
        img.height - min img.width img.height -
          (img.height - min img.width img.height) / 2 ∧
      img.height - min img.width img.height -
          (img.height - min img.width img.height) / 2 ≤
        (img.height - min img.width img.height) / 2 + 1)

/-- Width is preserved by `putalpha`. -/
@[simp] theorem putalpha_width (img : PIL.Image) (m : PIL.LImage) :
    (PIL.putalpha img m).width = img.width := rfl

/-- Height is preserved by `putalpha`. -/
@[simp] theorem putalpha_height (img : PIL.Image) (m : PIL.LImage) :
    (PIL.putalpha img m).height = img.height := rfl

/-- Width is preserved by `drawRegion`. -/
@[simp] theorem drawRegion_width (img : PIL.Image) (p : Nat → Nat → Bool) (c : PIL.Pix) :
    (PIL.drawRegion img p c).width = img.width := rfl

/-- Height is preserved by `drawRegion`. -/
@[simp] theorem drawRegion_height (img : PIL.Image) (p : Nat → Nat → Bool) (c : PIL.Pix) :
    (PIL.drawRegion img p c).height = img.height := rfl

/-- The centre crop of the file-based script yields the short side as width. -/
@[simp] theorem file_crop_width (img : PIL.Image) :
    (FileGen.center_crop_square img).width = min img.width img.height := by
  simp only [FileGen.center_crop_square, PIL.cropImage]
  omega

/-- The centre crop of the file-based script yields the short side as height. -/
@[simp] theorem file_crop_height (img : PIL.Image) :
    (FileGen.center_crop_square img).height = min img.width img.height := by
  simp only [FileGen.center_crop_square, PIL.cropImage]
  omega

/-- The two scripts' `center_crop_square` functions are the same function. -/
theorem url_crop_eq_file_crop : UrlGen.center_crop_square = FileGen.center_crop_square := rfl

set_option maxHeartbeats 1000000 in
/-- The drawn rounded-rectangle region coincides with the complement of
the spec's four beyond-the-radius corner areas, on the pixels of a mask
of side `S` with radius below half the side. -/
theorem roundedCond_iff_not_cornerOutside (S r x y : Nat) (hr : 2 * r < S)
    (hx : x < S) (hy : y < S) :
    PIL.roundedCond 0 0 (S - 1) (S - 1) r x y ↔ ¬ cornerOutside S r x y := by
  unfold PIL.roundedCond cornerOutside
  simp only [Nat.zero_add, Nat.zero_le, true_and]
  generalize PIL.diskD2 r r x y = a
  generalize PIL.diskD2 (S - 1 - r) r x y = b
  generalize PIL.diskD2 r (S - 1 - r) x y = c
  generalize PIL.diskD2 (S - 1 - r) (S - 1 - r) x y = d
  generalize r ^ 2 = e
  omega

/-- C2: for a mask of side `S` and radius `r` (below half the side, as
for every radius the pipelines use), each mask pixel inside the
rounded-rectangle region is fully opaque (255) and each pixel in the
four corner areas beyond the radius is fully transparent (0), for the
mask builders of both crop-based scripts. -/
theorem rounded_alpha_mask_opaque_inside_transparent_outside (S r x y : Nat)
    (hr : 2 * r < S) (hx : x < S) (hy : y < S) :
    (¬ cornerOutside S r x y →
      (FileGen.rounded_alpha_mask S r).px x y = 255 ∧
      (UrlGen.rounded_alpha_mask S r).px x y = 255) ∧
    (cornerOutside S r x y →
      (FileGen.rounded_alpha_mask S r).px x y = 0 ∧
      (UrlGen.rounded_alpha_mask S r).px x y = 0) := by
  have h := roundedCond_iff_not_cornerOutside S r x y hr hx hy
  constructor
  · intro hin
    have hc : PIL.roundedCond 0 0 (S - 1) (S - 1) r x y := h.mpr hin
    simp [FileGen.rounded_alpha_mask, UrlGen.rounded_alpha_mask, hc]
  · intro hout
    have hc : ¬ PIL.roundedCond 0 0 (S - 1) (S - 1) r x y := fun hc => (h.mp hc) hout
    simp [FileGen.rounded_alpha_mask, UrlGen.rounded_alpha_mask, hc]

/-- Witness for C2 at the top-left corner pixel of the 48-pixel mask. -/
theorem rounded_alpha_mask_corner_pixel :
    (FileGen.rounded_alpha_mask 48 7).px 0 0 = 0 ∧
      (UrlGen.rounded_alpha_mask 48 7).px 0 0 = 0 :=
  (rounded_alpha_mask_opaque_inside_transparent_outside 48 7 0 0
    (by decide) (by decide) (by decide)).2 (by decide)

/-- C3: the file-based `main` with a wrong argument count or a missing
source path performs no filesystem effect at all (no directory, no
file) and terminates through `SystemExit` (non-zero status) with a
message. -/
theorem file_main_bad_input_writes_nothing (resize : PIL.Resize) (argv : List String)
    (srcExists : Bool) (src : PIL.Image)
    (h : argv.length ≠ 2 ∨ srcExists = false) :
    (FileGen.main resize argv srcExists src).1 = [] ∧
      ∃ msg, (FileGen.main resize argv srcExists src).2 = some msg := by
  unfold FileGen.main
  rcases h with h | h
  · rw [if_pos h]
    exact ⟨rfl, FileGen.usageMsg, rfl⟩
  · by_cases h2 : argv.length ≠ 2
    · rw [if_pos h2]
      exact ⟨rfl, FileGen.usageMsg, rfl⟩
    · rw [if_neg h2, if_pos h]
      exact ⟨rfl, FileGen.notFoundMsg, rfl⟩

/-- Witness for C3: a run with no path argument. -/
theorem file_main_bad_input_writes_nothing_witness :
    (FileGen.main nearestResize ["generate_icons_from_file.py"] true sampleImg).1 = [] ∧
      ∃ msg,
        (FileGen.main nearestResize ["generate_icons_from_file.py"] true sampleImg).2 =
          some msg :=
  file_main_bad_input_writes_nothing nearestResize ["generate_icons_from_file.py"] true
    sampleImg (Or.inl (by decide))

/-- C1: `center_crop_square` (defined identically in both crop-based
scripts) returns a square image of side `min W H`; the crop is taken at
left margin `(W - side) / 2` and top margin `(H - side) / 2`, and on
each axis the two margins differ by at most one pixel. -/
theorem center_crop_square_centered_square :
    CropSpec FileGen.center_crop_square ∧ CropSpec UrlGen.center_crop_square := by
  constructor <;>
    · intro img
      refine ⟨?_, ?_, fun x y => rfl, ⟨?_, ?_⟩, ⟨?_, ?_⟩⟩ <;>
        first
          | omega
          | (simp only [FileGen.center_crop_square, UrlGen.center_crop_square, PIL.cropImage]
             omega)

/-- A status in the range for which `raise_for_status` raises makes
`fetch_image` fail. -/
theorem fetch_image_error_status (status : Nat) (decoded : Option PIL.Image)
    (h4 : 400 ≤ status) (h6 : status < 600) :
    UrlGen.fetch_image (UrlGen.FetchOutcome.response status decoded) = none := by
  unfold UrlGen.fetch_image UrlGen.raisesForStatus
  simp [h4, h6]

/-- Counterexample to C4 as stated: a final status of 304 (as `requests`
returns for a Not Modified response) is not 2xx, yet `raise_for_status`
does not raise, and when the body decodes as an image the run completes
and writes every PNG — here `source.png` is written. -/
theorem url_non2xx_response_may_write_files :
    ¬ UrlGen.is2xx 304 ∧
    (UrlGen.main nearestResize (UrlGen.FetchOutcome.response 304 (some sampleImg))).2 = none ∧
    PIL.FsOp.writeFile "source.png" (UrlGen.center_crop_square sampleImg) ∈
      (UrlGen.main nearestResize (UrlGen.FetchOutcome.response 304 (some sampleImg))).1 := by
  refine ⟨by decide, rfl, ?_⟩
  exact List.Mem.tail _ (List.Mem.tail _ (List.Mem.head _))

/-- C4 (amended): for every run in which the HTTP GET returns a 4xx or
5xx status — exactly the codes `raise_for_status` raises for — the run
aborts before any PNG file (`source.png` or any `iconNNN.png`) is
written: the trace holds only the directory creation and the fetch. -/
theorem url_error_status_aborts_before_writes (resize : PIL.Resize) (status : Nat)
    (decoded : Option PIL.Image) (h4 : 400 ≤ status) (h6 : status < 600) :
    (UrlGen.main resize (UrlGen.FetchOutcome.response status decoded)).1 =
        [PIL.FsOp.mkdirOut, PIL.FsOp.fetch] ∧
      (∃ msg, (UrlGen.main resize (UrlGen.FetchOutcome.response status decoded)).2 = some msg) ∧
      ∀ n img, PIL.FsOp.writeFile n img ∉
        (UrlGen.main resize (UrlGen.FetchOutcome.response status decoded)).1 := by
  have hf := fetch_image_error_status status decoded h4 h6
  refine ⟨?_, ⟨UrlGen.fetchFailMsg, ?_⟩, ?_⟩ <;> simp [UrlGen.main, hf]

/-- Witness for the amended C4: a 404 response aborts with no PNG write. -/
theorem url_error_status_aborts_witness :
    (UrlGen.main nearestResize (UrlGen.FetchOutcome.response 404 (some sampleImg))).1 =
      [PIL.FsOp.mkdirOut, PIL.FsOp.fetch] :=
  (url_error_status_aborts_before_writes nearestResize 404 (some sampleImg)
    (by decide) (by decide)).1

/-- Counterexample to C10 as stated: a final status of 300 with a body
that decodes as an image is a non-2xx response on which the run does
not abort — it proceeds and writes PNG files. -/
theorem url_mkdir_then_non2xx_may_write :
    ¬ UrlGen.is2xx 300 ∧
    (UrlGen.main nearestResize (UrlGen.FetchOutcome.response 300 (some sampleImg))).2 = none ∧
    PIL.FsOp.writeFile "source.png" (UrlGen.center_crop_square sampleImg) ∈
      (UrlGen.main nearestResize (UrlGen.FetchOutcome.response 300 (some sampleImg))).1 := by
  refine ⟨by decide, rfl, ?_⟩
  exact List.Mem.tail _ (List.Mem.tail _ (List.Mem.head _))

/-- C10 (amended): on every run the output directory is created before
the fetch is attempted, and on a failed fetch (network error, a 4xx/5xx
status raised by `raise_for_status`, or an undecodable body) the run
aborts having created the directory but written no PNG file — the error
path does not leave the filesystem fully unchanged. -/
theorem url_fetch_failure_leaves_only_outdir (resize : PIL.Resize)
    (o : UrlGen.FetchOutcome) (h : UrlGen.fetch_image o = none) :
    (∀ o' : UrlGen.FetchOutcome, ∃ rest,
      (UrlGen.main resize o').1 = PIL.FsOp.mkdirOut :: PIL.FsOp.fetch :: rest) ∧
    (UrlGen.main resize o).1 = [PIL.FsOp.mkdirOut, PIL.FsOp.fetch] ∧
    (∃ msg, (UrlGen.main resize o).2 = some msg) ∧
    PIL.FsOp.mkdirOut ∈ (UrlGen.main resize o).1 ∧
    ∀ n img, PIL.FsOp.writeFile n img ∉ (UrlGen.main resize o).1 := by
  refine ⟨?_, ?_, ⟨UrlGen.fetchFailMsg, ?_⟩, ?_, ?_⟩
  · intro o'
    unfold UrlGen.main
    cases hf : UrlGen.fetch_image o'
    · exact ⟨[], rfl⟩
    · exact ⟨_, rfl⟩
  all_goals simp [UrlGen.main, h]

/-- Witness for the amended C10: a network error leaves only the
directory creation in the trace. -/
theorem url_fetch_failure_witness :
    (UrlGen.main nearestResize UrlGen.FetchOutcome.netError).1 =
      [PIL.FsOp.mkdirOut, PIL.FsOp.fetch] :=
  (url_fetch_failure_leaves_only_outdir nearestResize UrlGen.FetchOutcome.netError rfl).2.1

/-- The gradient raster has the requested dimensions. -/
@[simp] theorem gradient_width (size : Nat) : (ProcGen.gradient size).width = size := rfl

/-- The gradient raster has the requested dimensions. -/
@[simp] theorem gradient_height (size : Nat) : (ProcGen.gradient size).height = size := rfl

/-- A fold of region draws preserves the width. -/
theorem foldl_drawRegion_width (g : Nat × Nat → Nat → Nat → Bool) (c : PIL.Pix) :
    ∀ (l : List (Nat × Nat)) (init : PIL.Image),
      (l.foldl (fun im iw => PIL.drawRegion im (g iw) c) init).width = init.width := by
  intro l
  induction l with
  | nil => intro init; rfl
  | cons a t ih => intro init; rw [List.foldl_cons, ih]; rfl

/-- A fold of region draws preserves the height. -/
theorem foldl_drawRegion_height (g : Nat × Nat → Nat → Nat → Bool) (c : PIL.Pix) :
    ∀ (l : List (Nat × Nat)) (init : PIL.Image),
      (l.foldl (fun im iw => PIL.drawRegion im (g iw) c) init).height = init.height := by
  intro l
  induction l with
  | nil => intro init; rfl
  | cons a t ih => intro init; rw [List.foldl_cons, ih]; rfl

/-- The drawing steps preserve the raster dimensions. -/
@[simp] theorem decorate_width (size : Nat) (img : PIL.Image) :
    (ProcGen.decorate size img).width = img.width := by
  unfold ProcGen.decorate
  simp only [drawRegion_width, putalpha_width, foldl_drawRegion_width]

/-- The drawing steps preserve the raster dimensions. -/
@[simp] theorem decorate_height (size : Nat) (img : PIL.Image) :
    (ProcGen.decorate size img).height = img.height := by
  unfold ProcGen.decorate
  simp only [drawRegion_height, putalpha_height, foldl_drawRegion_height]

/-- The centre crop of the URL-based script yields the short side as width. -/
@[simp] theorem url_crop_width (img : PIL.Image) :
    (UrlGen.center_crop_square img).width = min img.width img.height := by
  simp only [UrlGen.center_crop_square, PIL.cropImage]
  omega

/-- The centre crop of the URL-based script yields the short side as height. -/
@[simp] theorem url_crop_height (img : PIL.Image) :
    (UrlGen.center_crop_square img).height = min img.width img.height := by
  simp only [UrlGen.center_crop_square, PIL.cropImage]
  omega

/-- For a size of at least 2 the gradient loop never divides by zero and
`make_base` returns the decorated gradient. -/
theorem make_base_eq_of_two_le (size : Nat) (h : 2 ≤ size) :
    ProcGen.make_base size = some (ProcGen.decorate size (ProcGen.gradient size)) := by
  unfold ProcGen.make_base
  rw [if_neg]
  intro hc
  have h2 := hc.2
  unfold ProcGen.gradient_divisor at h2
  omega

/-- C5: on every successful run, the written PNGs are exactly the four
icon files at exactly their target dimensions, preceded by `source.png`
(at the cropped square's side) for the two crop-based generators.  The
`resize` parameter is only assumed to produce the requested dimensions,
which PIL's `Image.resize((s, s), ...)` guarantees. -/
theorem successful_runs_write_exact_icon_set (resize : PIL.Resize)
    (hdim : ∀ img s, (resize img s).width = s ∧ (resize img s).height = s) :
    (∀ (argv : List String) (srcExists : Bool) (src : PIL.Image),
      argv.length = 2 → srcExists = true →
      (FileGen.main resize argv srcExists src).2 = none ∧
      PIL.writtenPNGs (FileGen.main resize argv srcExists src).1 =
        [("source.png", min src.width src.height, min src.width src.height),
         ("icon512.png", 512, 512), ("icon128.png", 128, 128),
         ("icon48.png", 48, 48), ("icon16.png", 16, 16)]) ∧
    (∀ (o : UrlGen.FetchOutcome) (src : PIL.Image), UrlGen.fetch_image o = some src →
      (UrlGen.main resize o).2 = none ∧
      PIL.writtenPNGs (UrlGen.main resize o).1 =
        [("source.png", min src.width src.height, min src.width src.height),
         ("icon512.png", 512, 512), ("icon128.png", 128, 128),
         ("icon48.png", 48, 48), ("icon16.png", 16, 16)]) ∧
    ((ProcGen.main resize).2 = none ∧
      PIL.writtenPNGs (ProcGen.main resize).1 =
        [("icon512.png", 512, 512), ("icon128.png", 128, 128),
         ("icon48.png", 48, 48), ("icon16.png", 16, 16)]) := by
  refine ⟨?_, ?_, ?_⟩
  · intro argv srcExists src h1 h2
    constructor
    · simp [FileGen.main, h1, h2]
    · simp [FileGen.main, h1, h2, FileGen.process, FileGen.SPECS, FileGen.icon,
        PIL.writtenPNGs, hdim]
  · intro o src hf
    constructor
    · simp [UrlGen.main, hf]
    · simp [UrlGen.main, hf, UrlGen.process, UrlGen.SPECS, UrlGen.icon,
        PIL.writtenPNGs, hdim]
  · have hb := make_base_eq_of_two_le 512 (by norm_num)
    constructor
    · unfold ProcGen.main
      rw [hb]
    · unfold ProcGen.main
      rw [hb]
      simp [ProcGen.targets, PIL.writtenPNGs, hdim]

/-- Witness for C5: the file-based generator on a concrete 5 by 3 image. -/
theorem successful_runs_write_exact_icon_set_witness :
    PIL.writtenPNGs (FileGen.main nearestResize ["s", "p"] true sampleImg).1 =
      [("source.png", 3, 3), ("icon512.png", 512, 512), ("icon128.png", 128, 128),
       ("icon48.png", 48, 48), ("icon16.png", 16, 16)] :=
  ((successful_runs_write_exact_icon_set nearestResize
    (fun _ _ => ⟨rfl, rfl⟩)).1 ["s", "p"] true sampleImg rfl rfl).2

/-- C6: for every target size of the crop-based pipelines the mask
radius equals `max(2, floor(size * 0.16))`, the spec's fixed fraction
with a 2-pixel minimum, with the concrete values 2, 7, 20 and 81. -/
theorem corner_radius_fraction_of_size :
    (∀ p ∈ FileGen.SPECS, FileGen.corner_radius p.1 = specRadius p.1) ∧
    (∀ sp ∈ UrlGen.SPECS, UrlGen.corner_radius sp.size = specRadius sp.size) ∧
    FileGen.corner_radius 16 = 2 ∧ FileGen.corner_radius 48 = 7 ∧
    FileGen.corner_radius 128 = 20 ∧ FileGen.corner_radius 512 = 81 := by
  refine ⟨?_, ?_, by decide, by decide, by decide, by decide⟩
  · intro p hp
    fin_cases hp <;> (norm_num [specRadius, FileGen.corner_radius]; all_goals decide)
  · intro sp hp
    fin_cases hp <;> (norm_num [specRadius, UrlGen.corner_radius]; all_goals decide)

/-- Witness for C6 at target size 512. -/
theorem corner_radius_fraction_witness :
    FileGen.corner_radius 512 = specRadius 512 :=
  corner_radius_fraction_of_size.1 (512, "icon512.png") (by decide)

/-- The output loop emits a unique trace for a given spec list. -/
theorem loopRun_det {body : Nat → String → PIL.FsOp} {l : List (Nat × String)}
    {o1 o2 : List PIL.FsOp} (h1 : LoopRun body l o1) (h2 : LoopRun body l o2) :
    o1 = o2 := by
  induction h1 generalizing o2 with
  | nil => cases h2; rfl
  | cons s f rest ops h ih =>
    cases h2 with
    | cons _ _ _ ops2 h2' => rw [ih h2']

/-- The output loop relates every spec list to its mapped trace. -/
theorem loopRun_map (body : Nat → String → PIL.FsOp) (l : List (Nat × String)) :
    LoopRun body l (l.map fun p => body p.1 p.2) := by
  induction l with
  | nil => exact .nil
  | cons p t ih =>
    cases p
    exact .cons _ _ _ _ ih

/-- The functional model of the file-based `main` satisfies its run relation. -/
theorem runFile_main (resize : PIL.Resize) (argv : List String) (srcExists : Bool)
    (src : PIL.Image) :
    RunFile resize argv srcExists src (FileGen.main resize argv srcExists src) := by
  unfold FileGen.main
  by_cases h1 : argv.length ≠ 2
  · rw [if_pos h1]
    exact .usage h1
  · rw [if_neg h1]
    by_cases h2 : srcExists = false
    · rw [if_pos h2]
      exact .missing (of_not_not h1) h2
    · rw [if_neg h2]
      have h2' : srcExists = true := by
        cases srcExists
        · exact absurd rfl h2
        · rfl
      have hl := loopRun_map (fun s f =>
        PIL.FsOp.writeFile f (FileGen.icon resize (FileGen.center_crop_square src) s))
        FileGen.SPECS
      have hs := RunFile.success _ (of_not_not h1) h2' hl
      simpa [FileGen.process, List.map_map, Function.comp] using hs

/-- The functional model of the URL-based `main` satisfies its run relation. -/
theorem runUrl_main (resize : PIL.Resize) (o : UrlGen.FetchOutcome) :
    RunUrl resize o (UrlGen.main resize o) := by
  unfold UrlGen.main
  cases hf : UrlGen.fetch_image o with
  | none => exact .fail hf
  | some src =>
    have hl := loopRun_map (fun s f =>
      PIL.FsOp.writeFile f (UrlGen.icon resize (UrlGen.center_crop_square src) s))
      (UrlGen.SPECS.map fun sp => (sp.size, sp.filename))
    have hs := RunUrl.success src _ hf hl
    simpa [UrlGen.process, List.map_map, Function.comp] using hs

/-- The functional model of the procedural `main` satisfies its run relation. -/
theorem runProc_main (resize : PIL.Resize) :
    RunProc resize (ProcGen.main resize) := by
  unfold ProcGen.main
  cases hb : ProcGen.make_base 512 with
  | none => exact .fault hb
  | some base =>
    have hl := loopRun_map (fun s f => PIL.FsOp.writeFile f (resize base s)) ProcGen.targets
    have hs := RunProc.success base _ hb hl
    simpa [List.map_map, Function.comp] using hs

/-- C7: each generator's run relation is deterministic — two runs with
the same inputs (the same decoded source image, the same fetch outcome,
or no input at all for the procedural generator) produce the same
effect trace, so the output rasters are pixel-identical. -/
theorem generator_runs_deterministic (resize : PIL.Resize) (argv : List String)
    (srcExists : Bool) (src : PIL.Image) (o : UrlGen.FetchOutcome)
    (r1 r2 u1 u2 p1 p2 : List PIL.FsOp × Option String) :
    (RunFile resize argv srcExists src r1 → RunFile resize argv srcExists src r2 → r1 = r2) ∧
    (RunUrl resize o u1 → RunUrl resize o u2 → u1 = u2) ∧
    (RunProc resize p1 → RunProc resize p2 → p1 = p2) := by
  refine ⟨?_, ?_, ?_⟩
  · intro h1 h2
    cases h1 with
    | usage h =>
      cases h2 with
      | usage h' => rfl
      | missing h' h'' => exact absurd h' h
      | success ops h' h'' hl => exact absurd h' h
    | missing ha hb =>
      cases h2 with
      | usage h' => exact absurd ha h'
      | missing h' h'' => rfl
      | success ops h' h'' hl => exact Bool.noConfusion (hb.symm.trans h'')
    | success ops ha hb hl =>
      cases h2 with
      | usage h' => exact absurd ha h'
      | missing h' h'' => exact Bool.noConfusion (h''.symm.trans hb)
      | success ops2 h' h'' hl2 => rw [loopRun_det hl hl2]
  · intro h1 h2
    cases h1 with
    | fail hf =>
      cases h2 with
      | fail hf' => rfl
      | success src2 ops2 hf' hl2 => exact Option.noConfusion (hf.symm.trans hf')
    | success src1 ops1 hf hl =>
      cases h2 with
      | fail hf' => exact Option.noConfusion (hf'.symm.trans hf)
      | success src2 ops2 hf' hl2 =>
        have hsrc : src1 = src2 := Option.some.inj (hf.symm.trans hf')
        subst hsrc
        rw [loopRun_det hl hl2]
  · intro h1 h2
    cases h1 with
    | fault hb =>
      cases h2 with
      | fault hb' => rfl
      | success base2 ops2 hb' hl2 => exact Option.noConfusion (hb.symm.trans hb')
    | success base1 ops1 hb hl =>
      cases h2 with
      | fault hb' => exact Option.noConfusion (hb'.symm.trans hb)
      | success base2 ops2 hb' hl2 =>
        have hbase : base1 = base2 := Option.some.inj (hb.symm.trans hb')
        subst hbase
        rw [loopRun_det hl hl2]

/-- Witness for C7: determinism applied to the concrete runs of the
three generators' functional models. -/
theorem generator_runs_deterministic_witness :
    FileGen.main nearestResize ["s", "p"] true sampleImg =
        FileGen.main nearestResize ["s", "p"] true sampleImg ∧
      UrlGen.main nearestResize UrlGen.FetchOutcome.netError =
        UrlGen.main nearestResize UrlGen.FetchOutcome.netError ∧
      ProcGen.main nearestResize = ProcGen.main nearestResize :=
  ⟨(generator_runs_deterministic nearestResize ["s", "p"] true sampleImg
      UrlGen.FetchOutcome.netError
      (FileGen.main nearestResize ["s", "p"] true sampleImg)
      (FileGen.main nearestResize ["s", "p"] true sampleImg)
      (UrlGen.main nearestResize UrlGen.FetchOutcome.netError)
      (UrlGen.main nearestResize UrlGen.FetchOutcome.netError)
      (ProcGen.main nearestResize) (ProcGen.main nearestResize)).1
      (runFile_main nearestResize ["s", "p"] true sampleImg)
      (runFile_main nearestResize ["s", "p"] true sampleImg),
    (generator_runs_deterministic nearestResize ["s", "p"] true sampleImg
      UrlGen.FetchOutcome.netError
      (FileGen.main nearestResize ["s", "p"] true sampleImg)
      (FileGen.main nearestResize ["s", "p"] true sampleImg)
      (UrlGen.main nearestResize UrlGen.FetchOutcome.netError)
      (UrlGen.main nearestResize UrlGen.FetchOutcome.netError)
      (ProcGen.main nearestResize) (ProcGen.main nearestResize)).2.1
      (runUrl_main nearestResize UrlGen.FetchOutcome.netError)
      (runUrl_main nearestResize UrlGen.FetchOutcome.netError),
    (generator_runs_deterministic nearestResize ["s", "p"] true sampleImg
      UrlGen.FetchOutcome.netError
      (FileGen.main nearestResize ["s", "p"] true sampleImg)
      (FileGen.main nearestResize ["s", "p"] true sampleImg)
      (UrlGen.main nearestResize UrlGen.FetchOutcome.netError)
      (UrlGen.main nearestResize UrlGen.FetchOutcome.netError)
      (ProcGen.main nearestResize) (ProcGen.main nearestResize)).2.2
      (runProc_main nearestResize) (runProc_main nearestResize)⟩

/-- C8: the URL-based generator's processing pipeline is the file-based
generator's — the crop, mask, radius and per-size output functions are
equal as functions, and the written image list agrees on every source
image for every resampling filter. -/
theorem url_pipeline_equals_file_pipeline (resize : PIL.Resize) (src : PIL.Image) :
    UrlGen.center_crop_square = FileGen.center_crop_square ∧
    UrlGen.rounded_alpha_mask = FileGen.rounded_alpha_mask ∧
    UrlGen.corner_radius = FileGen.corner_radius ∧
    UrlGen.icon = FileGen.icon ∧
    UrlGen.process resize src = FileGen.process resize src :=
  ⟨rfl, rfl, rfl, rfl, rfl⟩

/-- Counterexample to C9 as stated: the claim's "the divisor is nonzero
if and only if size >= 2" fails at `size = 0`, where the divisor
`2 * (size - 1)` is `-2`, nonzero, although `size < 2`. -/
theorem gradient_divisor_nonzero_at_size_zero :
    ProcGen.gradient_divisor 0 = -2 ∧ ProcGen.gradient_divisor 0 ≠ 0 ∧
      ¬ (2 ≤ (0 : ℤ)) := by
  refine ⟨rfl, ?_, by decide⟩
  decide

/-- C9 (amended): the divisor `2 * (size - 1)` of the gradient parameter
is nonzero iff `size ≠ 1` (for positive sizes: iff `size ≥ 2`), so the
gradient loop of `make_base` divides by zero exactly at `size = 1`,
where the call fails, while every `size ≥ 2` yields a `size` by `size`
base image. -/
theorem gradient_division_by_zero_iff_size_one :
    (∀ size : ℤ, ProcGen.gradient_divisor size ≠ 0 ↔ size ≠ 1) ∧
    (∀ size : ℤ, 1 ≤ size → (ProcGen.gradient_divisor size ≠ 0 ↔ 2 ≤ size)) ∧
    ProcGen.make_base 1 = none ∧
    (∀ size : Nat, 2 ≤ size →
      ∃ img, ProcGen.make_base size = some img ∧ img.width = size ∧ img.height = size) := by
  refine ⟨?_, ?_, ?_, ?_⟩
  · intro size
    unfold ProcGen.gradient_divisor
    constructor <;> intro h <;> omega
  · intro size h1
    unfold ProcGen.gradient_divisor
    constructor <;> intro h <;> omega
  · rfl
  · intro size h
    exact ⟨ProcGen.decorate size (ProcGen.gradient size), make_base_eq_of_two_le size h,
      by simp, by simp⟩

/-- Witness for the amended C9 at sizes 3 and 2. -/
theorem gradient_division_by_zero_witness :
    (ProcGen.gradient_divisor 3 ≠ 0 ↔ 2 ≤ (3 : ℤ)) ∧
      ∃ img, ProcGen.make_base 2 = some img ∧ img.width = 2 ∧ img.height = 2 :=
  ⟨gradient_division_by_zero_iff_size_one.2.1 3 (by decide),
    gradient_division_by_zero_iff_size_one.2.2.2 2 (by decide)⟩
